import Mathlib

/-!
Shallow embedding of the tfss task service (src/app): the cache client and its
decorators (`cache.py`), the metrics decorator (`metrics.py`), the task routes
(`routes.py`) and the health check (`main.py`).  State is passed explicitly
through a `World`; Python exceptions become an `Outcome.raised` constructor, and
the `except` branches of the source become the corresponding failure flags on
the state.  The process-local Python `hash` is a parameter `h : String → Int`;
concrete runs instantiate it with `hLen` (string length), which separates the
strings the runs depend on.  FastAPI invokes endpoint functions with keyword
arguments built from the path/query parameters, so composed endpoints pass
their parameters through `kwargs`.
-/

namespace Tfss

/-- A Python value appearing as an endpoint argument. -/
inductive Arg where
  | int (n : Int)
  | str (s : String)
deriving DecidableEq, Repr

/-- Single-quote character, written via its code point. -/
def sq : String := String.singleton (Char.ofNat 39)

/-- Python `repr` of an argument value (as it appears inside `str(args)`). -/
def pyRepr : Arg → String
  | .int n => toString n
  | .str s => sq ++ s ++ sq

/-- Python `str(args)` for a tuple of positional arguments. -/
def pyStrTuple (xs : List Arg) : String :=
  "(" ++ String.intercalate ", " (xs.map pyRepr) ++
    (if xs.length = 1 then ",)" else ")")

/-- Insertion into a keyword-argument list sorted by key (Python `sorted`). -/
def insertKw (x : String × Arg) : List (String × Arg) → List (String × Arg)
  | [] => [x]
  | y :: ys =>
    if compare x.1 y.1 == Ordering.gt then y :: insertKw x ys else x :: y :: ys

/-- Python `sorted(kwargs.items())` (keys are unique in a Python dict). -/
def sortKwargs : List (String × Arg) → List (String × Arg)
  | [] => []
  | x :: xs => insertKw x (sortKwargs xs)

/-- Python `str(sorted(kwargs.items()))`. -/
def pyStrKwargs (kvs : List (String × Arg)) : String :=
  "[" ++ String.intercalate ", "
    ((sortKwargs kvs).map fun kv =>
      "(" ++ pyRepr (Arg.str kv.1) ++ ", " ++ pyRepr kv.2 ++ ")") ++ "]"

/-- The cache key computed by the wrapper of `cache_response` (cache.py:149-155):
`key_prefix:func.__name__`, extended by `:{hash(str(args))}` only when
positional arguments are present and by `:{hash(str(sorted(kwargs.items())))}`
only when keyword arguments are present. -/
def cacheKey (h : String → Int) (keyPrefix funcName : String)
    (args : List Arg) (kwargs : List (String × Arg)) : String :=
  let k := keyPrefix ++ ":" ++ funcName
  let k := if args.isEmpty then k else k ++ ":" ++ toString (h (pyStrTuple args))
  if kwargs.isEmpty then k else k ++ ":" ++ toString (h (pyStrKwargs kwargs))

/-- Stand-in for the process-local Python string hash in concrete runs. -/
def hLen (s : String) : Int := s.length

/-- A raised Python exception, as far as the wrappers can observe it:
its type name, an optional carried `status_code`, and a detail message. -/
structure Err where
  typeName : String
  statusCode : Option Nat
  detail : String
deriving DecidableEq, Repr

/-- The exception `fastapi.HTTPException(status_code, detail)`. -/
def httpExc (code : Nat) (detail : String) : Err :=
  { typeName := "HTTPException", statusCode := some code, detail := detail }

/-- Result of running a Python coroutine: a value or a raised exception. -/
inductive Outcome (α : Type) where
  | ok (v : α)
  | raised (e : Err)
deriving DecidableEq, Repr

/-- A task row in the database (`tasks` table). -/
structure TaskRow where
  id : Int
  title : String
  description : Option String
  status : String
  created_at : Nat
  updated_at : Option Nat
deriving DecidableEq, Repr

/-- The `TaskResponse` pydantic model returned by the routes. -/
structure TaskResponse where
  id : Int
  title : String
  description : Option String
  status : String
  created_at : Nat
deriving DecidableEq, Repr

/-- Projection of a row onto the response model (routes.py task_dict). -/
def toResponse (t : TaskRow) : TaskResponse :=
  { id := t.id, title := t.title, description := t.description,
    status := t.status, created_at := t.created_at }

/-- A value handled by the endpoints (and hence picklable into the cache). -/
inductive Resp where
  | task (t : TaskResponse)
  | tasks (ts : List TaskResponse)
  | msg (s : String)
deriving DecidableEq, Repr

/-- State of the `RedisCache` client plus its backing store.  `getFails`,
`setFails`, `delFails` model the store raising during the respective calls
(the source catches these and degrades).  The store maps keys to a value and
the expiry (TTL in seconds) it was written with. -/
structure CacheState where
  enabled : Bool
  clientPresent : Bool
  getFails : Bool
  setFails : Bool
  delFails : Bool
  store : List (String × Resp × Nat)
  ttlDefault : Nat
deriving DecidableEq, Repr

/-- Embeds `RedisCache.is_connected`: client present and cache enabled. -/
def isConnected (c : CacheState) : Bool :=
  c.clientPresent && c.enabled

/-- Association-list lookup in the backing store. -/
def lookupStore (s : List (String × Resp × Nat)) (key : String) :
    Option (Resp × Nat) :=
  match s with
  | [] => none
  | (k, v) :: rest => if k = key then some v else lookupStore rest key

/-- Remove a key from the backing store. -/
def eraseStore (s : List (String × Resp × Nat)) (key : String) :
    List (String × Resp × Nat) :=
  match s with
  | [] => []
  | (k, v) :: rest =>
    if k = key then eraseStore rest key else (k, v) :: eraseStore rest key

/-- Embeds `RedisCache.get`: `None` when disconnected, on a raised store error, or on
a missing key; otherwise the deserialized value. -/
def cacheGet (c : CacheState) (key : String) : Option Resp :=
  if isConnected c = false then none
  else if c.getFails then none
  else
    match lookupStore c.store key with
    | some v => some v.1
    | none => none

/-- The client state after a successful `setex` of `v` under `key` with
expiry `t` seconds. -/
def storeAfterSet (c : CacheState) (key : String) (v : Resp) (t : Nat) :
    CacheState :=
  { c with store := (key, v, t) :: eraseStore c.store key }

/-- Embeds `RedisCache.set`: `False` (state unchanged) when disconnected or on a
raised store error; otherwise writes the value under `key` with expiry
`ttl` (the instance default when `ttl` is `None`) and returns `True`. -/
def cacheSet (c : CacheState) (key : String) (v : Resp) (ttl : Option Nat) :
    Bool × CacheState :=
  if isConnected c = false then (false, c)
  else if c.setFails then (false, c)
  else (true, storeAfterSet c key v (ttl.getD c.ttlDefault))

/-- Embeds `RedisCache.delete`: `False` when disconnected or on a raised store error;
otherwise removes the key and reports whether it was present. -/
def cacheDelete (c : CacheState) (key : String) : Bool × CacheState :=
  if isConnected c = false then (false, c)
  else if c.delFails then (false, c)
  else
    match lookupStore c.store key with
    | some _ => (true, { c with store := eraseStore c.store key })
    | none => (false, c)

/-- Redis glob matching restricted to the wildcards the repository uses
(`*` and `?`; the only patterns passed are `"tasks:*"` and `"*"`).  Each step
shrinks `pattern.length + key.length`, so the structural fuel below never
runs out when primed with more than that sum. -/
def globMatchFuel : Nat → List Char → List Char → Bool
  | 0, _, _ => false
  | _ + 1, [], [] => true
  | _ + 1, [], _ :: _ => false
  | f + 1, '*' :: ps, [] => globMatchFuel f ps []
  | f + 1, '*' :: ps, c :: cs =>
    globMatchFuel f ps (c :: cs) || globMatchFuel f ('*' :: ps) cs
  | _ + 1, '?' :: _, [] => false
  | f + 1, '?' :: ps, _ :: cs => globMatchFuel f ps cs
  | _ + 1, _ :: _, [] => false
  | f + 1, p :: ps, c :: cs => p == c && globMatchFuel f ps cs

/-- Whether a key matches a glob pattern. -/
def keyMatches (pattern key : String) : Bool :=
  globMatchFuel (pattern.length + key.length + 1) pattern.toList key.toList

/-- Embeds `RedisCache.delete_pattern`: `0` when disconnected or on a raised store
error; otherwise deletes every key matching the pattern and returns the
count deleted. -/
def deletePattern (c : CacheState) (pattern : String) : Nat × CacheState :=
  if isConnected c = false then (0, c)
  else if c.delFails then (0, c)
  else
    let hit := c.store.filter fun kv => keyMatches pattern kv.1
    if hit.length = 0 then (0, c)
    else (hit.length,
      { c with store := c.store.filter fun kv => !keyMatches pattern kv.1 })

/-- Bump a labelled Prometheus counter by one. -/
def bump {κ : Type} [DecidableEq κ] (m : List (κ × Nat)) (k : κ) :
    List (κ × Nat) :=
  match m with
  | [] => [(k, 1)]
  | (k', n) :: rest =>
    if k' = k then (k', n + 1) :: rest else (k', n) :: bump rest k

/-- Current value of a labelled counter (0 when the label set is unseen). -/
def countOf {κ : Type} [DecidableEq κ] (m : List (κ × Nat)) (k : κ) : Nat :=
  match m with
  | [] => 0
  | (k', n) :: rest => if k' = k then n else countOf rest k

/-- Adjust a labelled Prometheus gauge by `d` (`inc` is `d = 1`,
`dec` is `d = -1`; an unseen label set starts at 0). -/
def adjG (g : List (String × Int)) (e : String) (d : Int) :
    List (String × Int) :=
  match g with
  | [] => [(e, d)]
  | (k, v) :: rest =>
    if k = e then (k, v + d) :: rest else (k, v) :: adjG rest e d

/-- Current value of a labelled gauge (0 when the label set is unseen). -/
def gaugeOf (g : List (String × Int)) (e : String) : Int :=
  match g with
  | [] => 0
  | (k, v) :: rest => if k = e then v else gaugeOf rest e

/-- Prometheus state of `metrics.py`.  Histograms are modelled by their
observation counts (wall-clock durations are not part of the embedding):
`observations` is `endpoint_response_time` keyed by (endpoint, method),
`responses` is `tasks_responses_total` keyed by (endpoint, method, status),
`errors` is `tasks_errors_total` keyed by (endpoint, error type name),
`inFlight` is the `requests_in_progress` gauge keyed by endpoint, and
`named`/`namedObs` are the per-endpoint counters and histograms driven by
`increment_endpoint_counter` / `record_endpoint_duration`. -/
structure MetricsState where
  inFlight : List (String × Int)
  responses : List ((String × String × Nat) × Nat)
  errors : List ((String × String) × Nat)
  observations : List ((String × String) × Nat)
  named : List ((String × List (String × String)) × Nat)
  namedObs : List (String × Nat)
deriving DecidableEq, Repr

/-- A metrics registry with every counter at zero. -/
def MetricsState.empty : MetricsState :=
  { inFlight := [], responses := [], errors := [], observations := [],
    named := [], namedObs := [] }

/-- State of the `Database` adapter (db.py): whether the pool is present,
whether queries currently raise `PostgresError`, the `tasks` rows, and the
value `CURRENT_TIMESTAMP` would stamp into `updated_at`. -/
structure DbState where
  pool : Bool
  failing : Bool
  tasks : List TaskRow
  now : Nat
deriving DecidableEq, Repr

/-- The whole mutable state the handlers touch: the global cache client,
the global database adapter, and the Prometheus registry. -/
structure World where
  cache : CacheState
  db : DbState
  metrics : MetricsState
deriving DecidableEq, Repr

/-- Embeds `increment_endpoint_counter(name, labels)` applied to a world. -/
def incNamed (w : World) (name : String) (labels : List (String × String)) :
    World :=
  { w with metrics :=
    { w.metrics with named := bump w.metrics.named (name, labels) } }

/-- Embeds `record_endpoint_duration(name, duration)` applied to a world
(observation count only). -/
def recNamed (w : World) (name : String) : World :=
  { w with metrics :=
    { w.metrics with namedObs := bump w.metrics.namedObs name } }

/-- The wrapper produced by `cache_response(ttl, key_prefix)` (cache.py:143-175)
around a handler `func`, at a call with the given positional and keyword
arguments.  Mirrors the source: derive the key; when the cache client is
connected, try `get` and return a hit without invoking `func`; otherwise invoke
`func` (a raised exception propagates); then, when the client is (still)
connected and the result is not `None`, fire-and-forget a `set` with the
`ttl` of the decorator. -/
def cache_response (h : String → Int) (ttl : Option Nat)
    (keyPrefix funcName : String)
    (args : List Arg) (kwargs : List (String × Arg))
    (func : World → Outcome (Option Resp) × World) (w : World) :
    Outcome (Option Resp) × World :=
  let key := cacheKey h keyPrefix funcName args kwargs
  let runAndSet : World → Outcome (Option Resp) × World := fun w0 =>
    match func w0 with
    | (.raised e, w1) => (.raised e, w1)
    | (.ok result, w1) =>
      match result with
      | some v =>
        if isConnected w1.cache then
          let c1 := (cacheSet w1.cache key v ttl).2
          (.ok (some v), { w1 with cache := c1 })
        else (.ok (some v), w1)
      | none => (.ok none, w1)
  if isConnected w.cache then
    match cacheGet w.cache key with
    | some v => (.ok (some v), w)
    | none => runAndSet w
  else runAndSet w

/-- The wrapper produced by `invalidate_cache(pattern)` (cache.py:178-194):
invoke the handler (a raised exception propagates, skipping invalidation),
then, when the cache client is connected, delete every key matching the
pattern. -/
def invalidate_cache {ρ : Type} (pattern : String)
    (func : World → Outcome ρ × World) (w : World) : Outcome ρ × World :=
  match func w with
  | (.raised e, w1) => (.raised e, w1)
  | (.ok r, w1) =>
    if isConnected w1.cache then
      let c1 := (deletePattern w1.cache pattern).2
      (.ok r, { w1 with cache := c1 })
    else (.ok r, w1)

/-- The wrapper produced by `track_endpoint_metrics(endpoint_name, method)`
(metrics.py:154-208): increment the in-flight gauge, run the handler; on
success observe the duration and count a status-200 response; on a raised
exception observe the duration, count a response with the carried
`status_code` of the exception (500 when it carries none), count an error by type name, and
re-raise; in all cases (`finally`) decrement the in-flight gauge. -/
def track_endpoint_metrics {ρ : Type} (endpoint method : String)
    (func : World → Outcome ρ × World) (w : World) : Outcome ρ × World :=
  let w0 := { w with metrics :=
    { w.metrics with inFlight := adjG w.metrics.inFlight endpoint 1 } }
  match func w0 with
  | (.ok resp, w1) =>
    let m := w1.metrics
    let m := { m with
      observations := bump m.observations (endpoint, method),
      responses := bump m.responses (endpoint, method, 200) }
    let m := { m with inFlight := adjG m.inFlight endpoint (-1) }
    (.ok resp, { w1 with metrics := m })
  | (.raised e, w1) =>
    let m := w1.metrics
    let m := { m with observations := bump m.observations (endpoint, method) }
    let sc := e.statusCode.getD 500
    let m := { m with
      responses := bump m.responses (endpoint, method, sc),
      errors := bump m.errors (endpoint, e.typeName) }
    let m := { m with inFlight := adjG m.inFlight endpoint (-1) }
    (.raised e, { w1 with metrics := m })

/-- SQL `ORDER BY created_at DESC, id` comparison. -/
def rowLe (a b : TaskRow) : Bool :=
  (b.created_at < a.created_at) ||
    (a.created_at == b.created_at && a.id ≤ b.id)

/-- Insertion step of the order-by sort. -/
def insertRow (x : TaskRow) : List TaskRow → List TaskRow
  | [] => [x]
  | y :: ys => if rowLe x y then x :: y :: ys else y :: insertRow x ys

/-- Rows as returned by `SELECT ... ORDER BY created_at DESC, id`. -/
def sortRows : List TaskRow → List TaskRow
  | [] => []
  | x :: xs => insertRow x (sortRows xs)

/-- The `SELECT ... WHERE id = $1` point lookup. -/
def findTask (ts : List TaskRow) (id : Int) : Option TaskRow :=
  match ts with
  | [] => none
  | t :: rest => if t.id = id then some t else findTask rest id

/-- The `DELETE FROM tasks WHERE id = $1` statement. -/
def removeTask (ts : List TaskRow) (id : Int) : List TaskRow :=
  match ts with
  | [] => []
  | t :: rest =>
    if t.id = id then removeTask rest id else t :: removeTask rest id

/-- The key string `f"task:get_task_by_id:{hash(str((task_id,)))}"` that
`create_task`, `update_task` and `delete_task` delete directly
(routes.py:162,224,254). -/
def targetedKey (h : String → Int) (task_id : Int) : String :=
  "task:get_task_by_id:" ++ toString (h (pyStrTuple [Arg.int task_id]))

/-- Body of `get_all_tasks` (routes.py:69-96), undecorated. -/
def get_all_tasks_body (w : World) : Outcome (Option Resp) × World :=
  let w := incNamed w "tasks_get_all" []
  if w.db.pool = false then
    (.raised (httpExc 503 "Database not connected"), w)
  else if w.db.failing then
    (.raised (httpExc 500 "Database error"), w)
  else
    let tasks := (sortRows w.db.tasks).map toResponse
    let w := recNamed w "tasks_get_all"
    (.ok (some (Resp.tasks tasks)), w)

/-- Body of `get_task_by_id` (routes.py:101-129), undecorated. -/
def get_task_by_id_body (task_id : Int) (w : World) :
    Outcome (Option Resp) × World :=
  let w := incNamed w "tasks_get_by_id" [("task_id", toString task_id)]
  if w.db.pool = false then
    (.raised (httpExc 503 "Database not connected"), w)
  else if w.db.failing then
    (.raised (httpExc 500 "Database error"), w)
  else
    match findTask w.db.tasks task_id with
    | none =>
      (.raised (httpExc 404
        ("Task with id " ++ toString task_id ++ " not found")), w)
    | some t =>
      let w := recNamed w "tasks_get_by_id"
      (.ok (some (Resp.task (toResponse t))), w)

/-- The `TaskUpdate` pydantic model (all fields optional). -/
structure TaskUpdate where
  title : Option String
  description : Option String
  status : Option String
deriving DecidableEq, Repr

/-- Body of `update_task` (routes.py:176-231), undecorated: fetch the current
row (404 if absent), collect the provided optional fields (400 if none),
run `UPDATE ... SET <fields>, updated_at = CURRENT_TIMESTAMP ... RETURNING`,
then delete the (positional-digest) get-by-id cache key directly. -/
def update_task_body (h : String → Int) (task_id : Int) (task : TaskUpdate)
    (w : World) : Outcome (Option Resp) × World :=
  let w := incNamed w "tasks_update" [("task_id", toString task_id)]
  if w.db.pool = false then
    (.raised (httpExc 503 "Database not connected"), w)
  else if w.db.failing then
    (.raised (httpExc 500 "Database error"), w)
  else
    match findTask w.db.tasks task_id with
    | none =>
      (.raised (httpExc 404
        ("Task with id " ++ toString task_id ++ " not found")), w)
    | some cur =>
      if task.title = none ∧ task.description = none ∧ task.status = none then
        (.raised (httpExc 400 "No fields to update"), w)
      else
        let newRow : TaskRow :=
          { cur with
            title := task.title.getD cur.title,
            description :=
              match task.description with
              | some d => some d
              | none => cur.description,
            status := task.status.getD cur.status,
            updated_at := some w.db.now }
        let w := { w with db :=
          { w.db with tasks :=
            w.db.tasks.map fun t => if t.id = task_id then newRow else t } }
        let w :=
          if isConnected w.cache then
            { w with cache := (cacheDelete w.cache (targetedKey h task_id)).2 }
          else w
        let w := recNamed w "tasks_update"
        (.ok (some (Resp.task (toResponse newRow))), w)

/-- Body of `delete_task` (routes.py:236-261), undecorated: existence check
(404 if absent), `DELETE`, then delete the (positional-digest) get-by-id
cache key directly and return a message. -/
def delete_task_body (h : String → Int) (task_id : Int) (w : World) :
    Outcome (Option Resp) × World :=
  let w := incNamed w "tasks_delete" [("task_id", toString task_id)]
  if w.db.pool = false then
    (.raised (httpExc 503 "Database not connected"), w)
  else if w.db.failing then
    (.raised (httpExc 500 "Database error"), w)
  else
    match findTask w.db.tasks task_id with
    | none =>
      (.raised (httpExc 404
        ("Task with id " ++ toString task_id ++ " not found")), w)
    | some _ =>
      let w := { w with db :=
        { w.db with tasks := removeTask w.db.tasks task_id } }
      let w :=
        if isConnected w.cache then
          { w with cache := (cacheDelete w.cache (targetedKey h task_id)).2 }
        else w
      let w := recNamed w "tasks_delete"
      (.ok (some (Resp.msg
        ("Task " ++ toString task_id ++ " deleted successfully"))), w)

/-- Endpoint `GET /tasks/` as registered (routes.py:66-69): the body wrapped by
`track_endpoint_metrics("get_all_tasks", "GET")` inside
`cache_response(ttl=60, key_prefix="tasks")`; FastAPI passes no arguments. -/
def get_all_tasks_endpoint (h : String → Int) :
    World → Outcome (Option Resp) × World :=
  cache_response h (some 60) "tasks" "get_all_tasks" [] []
    (track_endpoint_metrics "get_all_tasks" "GET" get_all_tasks_body)

/-- Endpoint `GET /tasks/{task_id}` as registered (routes.py:98-101): the body wrapped
by `track_endpoint_metrics("get_task_by_id", "GET")` inside
`cache_response(ttl=120, key_prefix="task")`; FastAPI calls the endpoint
with the keyword argument `task_id`. -/
def get_task_by_id_endpoint (h : String → Int) (task_id : Int) :
    World → Outcome (Option Resp) × World :=
  cache_response h (some 120) "task" "get_task_by_id" []
    [("task_id", Arg.int task_id)]
    (track_endpoint_metrics "get_task_by_id" "GET"
      (get_task_by_id_body task_id))

/-- Endpoint `PUT /tasks/{task_id}` as registered (routes.py:173-176): the body wrapped
by `track_endpoint_metrics("update_task", "PUT")` inside
`invalidate_cache(pattern="tasks:*")`. -/
def update_task_endpoint (h : String → Int) (task_id : Int)
    (task : TaskUpdate) : World → Outcome (Option Resp) × World :=
  invalidate_cache "tasks:*"
    (track_endpoint_metrics "update_task" "PUT"
      (update_task_body h task_id task))

/-- Endpoint `DELETE /tasks/{task_id}` as registered (routes.py:233-236): the body
wrapped by `track_endpoint_metrics("delete_task", "DELETE")` inside
`invalidate_cache(pattern="tasks:*")`. -/
def delete_task_endpoint (h : String → Int) (task_id : Int) :
    World → Outcome (Option Resp) × World :=
  invalidate_cache "tasks:*"
    (track_endpoint_metrics "delete_task" "DELETE"
      (delete_task_body h task_id))

/-- Environment of the health probe (main.py:70-101): whether `db.pool` is
set, whether `SELECT 1` raises, whether the cache is enabled, whether its
client object is present, and whether `client.ping()` raises. -/
structure HealthInput where
  dbPool : Bool
  dbProbeFails : Bool
  cacheEnabled : Bool
  cacheClientPresent : Bool
  cachePingFails : Bool
deriving DecidableEq, Repr

/-- The fields of the health object (exception texts abstracted to `"error"`). -/
structure HealthStatus where
  status : String
  database : String
  cache : String
deriving DecidableEq, Repr

/-- Embeds `health_check` (main.py:72-101).  Start from
`{status: "healthy", database: "disconnected", cache: "disabled"}`; when the
pool is present, probe it (`unhealthy` on a raised error, else `connected` —
an absent pool leaves the initial fields); when the cache is enabled, ping a
present client (`unhealthy` on a raised error) or, with no client, set
`disconnected` and overwrite the status with `degraded`.  The handler never
raises, so the endpoint always answers 200. -/
def health_check (i : HealthInput) : HealthStatus :=
  let s0 : HealthStatus :=
    { status := "healthy", database := "disconnected", cache := "disabled" }
  let s1 :=
    if i.dbPool then
      if i.dbProbeFails then
        { s0 with database := "error", status := "unhealthy" }
      else { s0 with database := "connected" }
    else s0
  if i.cacheEnabled then
    if i.cacheClientPresent && i.cacheEnabled then
      if i.cachePingFails then
        { s1 with cache := "error", status := "unhealthy" }
      else { s1 with cache := "connected" }
    else { s1 with cache := "disconnected", status := "degraded" }
  else s1

/-- The stats dictionary built by `RedisCache.get_stats` on the success
path (cache.py:128-137). -/
structure CacheStats where
  enabled : Bool
  connected : Bool
  keys : Nat
  hits : Nat
  misses : Nat
  hit_rate : ℚ
deriving DecidableEq

/-- Result of `RedisCache.get_stats`: the `{"enabled": False}` dictionary,
the error dictionary from a raised `info()` call, or the stats. -/
inductive StatsResult where
  | disabledR
  | errorR
  | okR (s : CacheStats)
deriving DecidableEq

/-- Embeds `RedisCache.get_stats` (cache.py:121-140).  `hits`, `misses` and `keys`
are the values that the `info()`/`dbsize()` calls report; the hit rate is
`hits / max(1, hits + misses)`. -/
def get_stats (c : CacheState) (statsFails : Bool) (hits misses keys : Nat) :
    StatsResult :=
  if isConnected c = false then .disabledR
  else if statsFails then .errorR
  else .okR
    { enabled := true, connected := true, keys := keys,
      hits := hits, misses := misses,
      hit_rate := (hits : ℚ) / max 1 ((hits : ℚ) + (misses : ℚ)) }

/-- Run a batch of requests to completion, one after the other (the event
loop runs each request to completion or failure; the framework catches what
a handler raises between requests). -/
def runSeq (fs : List (World → Outcome (Option Resp) × World)) (w : World) :
    World :=
  match fs with
  | [] => w
  | f :: rest => runSeq rest (f w).2

/-- Iterate one endpoint `n` times, threading the state. -/
def iterCalls (f : World → Outcome (Option Resp) × World) :
    Nat → World → World
  | 0, w => w
  | n + 1, w => iterCalls f n (f w).2

/-- A handler that reports the in-flight gauge value it observes for `e`
at the moment it runs. -/
def probeGauge (e : String) (w : World) : Outcome Int × World :=
  (.ok (gaugeOf w.metrics.inFlight e), w)

/-- The cache store is reachable and operating: the client is connected and
neither `get` nor `set` raises. -/
def reachableCache (c : CacheState) : Prop :=
  isConnected c = true ∧ c.getFails = false ∧ c.setFails = false

/-- A connected, empty, fully working cache client (TTL default 300 as in
the `REDIS_TTL` fallback). -/
def connectedCache : CacheState :=
  { enabled := true, clientPresent := true, getFails := false,
    setFails := false, delFails := false, store := [], ttlDefault := 300 }

/-- A disabled/disconnected cache client. -/
def downCache : CacheState :=
  { connectedCache with clientPresent := false }

/-- A handler that always raises a 404 `HTTPException`, leaving the world
unchanged. -/
def opRaise404 (w : World) : Outcome (Option Resp) × World :=
  (.raised (httpExc 404 "nope"), w)

/-- A handler that always returns the fixed message `"pong"`, leaving the
world unchanged. -/
def opPong (w : World) : Outcome (Option Resp) × World :=
  (.ok (some (Resp.msg "pong")), w)

/-- The row used by the concrete scenarios. -/
def c8_task : TaskRow :=
  { id := 1, title := "A", description := none, status := "active",
    created_at := 10, updated_at := none }

/-- Scenario start for the delete-then-get run: one task, working cache,
live pool. -/
def c8_w0 : World :=
  { cache := connectedCache,
    db := { pool := true, failing := false, tasks := [c8_task], now := 50 },
    metrics := MetricsState.empty }

/-- Step one: `GET /tasks/1` on the scenario start (populates the cache). -/
def c8_afterGet : Outcome (Option Resp) × World :=
  get_task_by_id_endpoint hLen 1 c8_w0

/-- Step two: `DELETE /tasks/1`. -/
def c8_afterDelete : Outcome (Option Resp) × World :=
  delete_task_endpoint hLen 1 c8_afterGet.2

/-- Step three: `GET /tasks/1` again, after the delete. -/
def c8_afterGet2 : Outcome (Option Resp) × World :=
  get_task_by_id_endpoint hLen 1 c8_afterDelete.2

/-- Scenario start for the repeated-list-read run: empty table, working
cache, live pool. -/
def c4_w0 : World :=
  { cache := connectedCache,
    db := { pool := true, failing := false, tasks := [], now := 0 },
    metrics := MetricsState.empty }

/-- First `GET /tasks/` call. -/
def c4_call1 : Outcome (Option Resp) × World := get_all_tasks_endpoint hLen c4_w0

/-- Second `GET /tasks/` call. -/
def c4_call2 : Outcome (Option Resp) × World :=
  get_all_tasks_endpoint hLen c4_call1.2

/-- A world whose cache is down but whose database works, used to exercise
the direct-invocation paths. -/
def wDown : World :=
  { cache := downCache,
    db := { pool := true, failing := false, tasks := [c8_task], now := 50 },
    metrics := MetricsState.empty }

/-- A world whose cache holds a value under the key the zero-argument
wrapped handler `"f"` with prefix `"p"` derives. -/
def wHit : World :=
  { cache := { connectedCache with
      store := [("p:f", Resp.msg "cached", 60)] },
    db := { pool := true, failing := false, tasks := [], now := 0 },
    metrics := MetricsState.empty }

/-- An asyncpg unique-violation failure as the metrics wrapper would see it
after the route translated it (it carries a 409 status code). -/
def err409 : Err :=
  { typeName := "HTTPException", statusCode := some 409,
    detail := "Task already exists" }

/-- A handler that raises `err409`, resetting the world to `wDown`
(a constant transformer, convenient for exercising the failure path). -/
def opConst409 : World → Outcome (Option Resp) × World :=
  fun _ => (.raised err409, wDown)

/-- The stats record `get_stats` yields for 3 hits, 1 miss, 5 keys. -/
def statsWit : CacheStats :=
  { enabled := true, connected := true, keys := 5, hits := 3, misses := 1,
    hit_rate := ((3 : Nat) : ℚ) / max 1 (((3 : Nat) : ℚ) + ((1 : Nat) : ℚ)) }

/-! ## Helper lemmas -/

theorem countOf_bump_self {κ : Type} [DecidableEq κ]
    (m : List (κ × Nat)) (k : κ) :
    countOf (bump m k) k = countOf m k + 1 := by
  induction m with
  | nil => simp [bump, countOf]
  | cons x rest ih =>
    obtain ⟨k', n⟩ := x
    by_cases hk : k' = k <;> simp [bump, countOf, hk, ih]

theorem countOf_bump_ne {κ : Type} [DecidableEq κ]
    (m : List (κ × Nat)) (k k' : κ) (hne : k' ≠ k) :
    countOf (bump m k) k' = countOf m k' := by
  induction m with
  | nil => simp [bump, countOf, Ne.symm hne]
  | cons x rest ih =>
    obtain ⟨k0, n⟩ := x
    by_cases h0 : k0 = k
    · subst h0
      simp [bump, countOf, Ne.symm hne]
    · simp [bump, countOf, h0, ih]

theorem gaugeOf_adjG_self (g : List (String × Int)) (e : String) (d : Int) :
    gaugeOf (adjG g e d) e = gaugeOf g e + d := by
  induction g with
  | nil => simp [adjG, gaugeOf]
  | cons x rest ih =>
    obtain ⟨k, v⟩ := x
    by_cases hk : k = e <;> simp [adjG, gaugeOf, hk, ih]

/-! ## C10 -/

/-- C10: the cache statistics operation never divides by zero — the reported
hit rate is `hits / max(1, hits + misses)`, whose denominator is positive, and
for all non-negative hit and miss counts it lies in `[0, 1]`. -/
theorem C10_hit_rate_bounded (c : CacheState) (f : Bool)
    (hits misses keys : Nat) (s : CacheStats)
    (hs : get_stats c f hits misses keys = .okR s) :
    (0 : ℚ) < max 1 ((hits : ℚ) + (misses : ℚ)) ∧
      0 ≤ s.hit_rate ∧ s.hit_rate ≤ 1 := by
  have hpos : (0 : ℚ) < max 1 ((hits : ℚ) + (misses : ℚ)) :=
    lt_of_lt_of_le zero_lt_one (le_max_left _ _)
  unfold get_stats at hs
  by_cases hc : isConnected c = false
  · simp [hc] at hs
  · by_cases hf : f = true
    · simp [hc, hf] at hs
    · simp [hc, hf] at hs
      refine ⟨hpos, ?_, ?_⟩
      · rw [← hs]
        exact div_nonneg (by positivity) (le_of_lt hpos)
      · rw [← hs]
        refine (div_le_one hpos).mpr ?_
        exact le_trans
          (le_add_of_nonneg_right (by positivity)) (le_max_right _ _)

/-- Witness for C10 at a connected cache reporting 3 hits, 1 miss, 5 keys. -/
theorem C10_hit_rate_bounded_witness :
    (0 : ℚ) < max 1 (((3 : Nat) : ℚ) + ((1 : Nat) : ℚ)) ∧
      0 ≤ statsWit.hit_rate ∧ statsWit.hit_rate ≤ 1 :=
  C10_hit_rate_bounded connectedCache false 3 1 5 statsWit rfl

/-! ## C7 -/

/-- C7 counterexample: with the database pool absent (database down) and the
cache healthy, `health_check` reports `"healthy"`, not `"unhealthy"`; and with
the database up but the cache ping raising (cache down), it reports
`"unhealthy"`, not `"degraded"`. -/
theorem C7_counterexample :
    health_check
        { dbPool := false, dbProbeFails := false, cacheEnabled := true,
          cacheClientPresent := true, cachePingFails := false } =
      { status := "healthy", database := "disconnected",
        cache := "connected" } ∧
    health_check
        { dbPool := true, dbProbeFails := false, cacheEnabled := true,
          cacheClientPresent := true, cachePingFails := true } =
      { status := "unhealthy", database := "connected", cache := "error" } :=
  ⟨rfl, rfl⟩

/-- C7 amended: the health handler is total (always answers 200) and its
status field is characterized as follows — `"degraded"` exactly when the cache
is enabled with no client (even if the database is down), `"unhealthy"` when
the cache ping raises, or when a database probe raises while the cache is
disabled or fully responsive, and `"healthy"` otherwise; in particular an
absent database pool leaves the status `"healthy"` (the database field just
reads `"disconnected"`). -/
theorem C7_health_status_characterized (i : HealthInput) :
    health_check i =
      { status :=
          if i.cacheEnabled && !i.cacheClientPresent then "degraded"
          else if i.cacheEnabled && i.cacheClientPresent && i.cachePingFails
            then "unhealthy"
          else if i.dbPool && i.dbProbeFails then "unhealthy"
          else "healthy",
        database :=
          if i.dbPool then
            if i.dbProbeFails then "error" else "connected"
          else "disconnected",
        cache :=
          if i.cacheEnabled then
            if i.cacheClientPresent then
              if i.cachePingFails then "error" else "connected"
            else "disconnected"
          else "disabled" } := by
  obtain ⟨a, b, c, d, e⟩ := i
  cases a <;> cases b <;> cases c <;> cases d <;> cases e <;> rfl

/-! ## C9 -/

set_option maxRecDepth 8192 in
/-- C9 counterexample: `get_all_tasks` is wrapped with `key_prefix="tasks"`
and is invoked with no arguments, so its derived key is the bare
`"tasks:get_all_tasks"` — it is shorter than, and not an extension of,
`key_prefix ++ ":" ++ identity ++ ":"`, so it equals
`key_prefix ++ ":" ++ identity ++ ":" ++ d` for no digest string `d`. -/
theorem C9_counterexample :
    cacheKey hLen "tasks" "get_all_tasks" [] [] = "tasks:get_all_tasks" ∧
    String.startsWith "tasks:get_all_tasks"
        ("tasks" ++ ":" ++ "get_all_tasks" ++ ":") = false ∧
    ("tasks:get_all_tasks").length <
      ("tasks" ++ ":" ++ "get_all_tasks" ++ ":").length := by
  refine ⟨rfl, ?_, ?_⟩ <;> decide

/-- C9 amended: the derived key is `key_prefix ++ ":" ++ identity`, extended
by `":" ++ digest(args)` only when positional arguments are present and by
`":" ++ digest(sorted kwargs)` only when keyword arguments are present; and
the key is deterministic for a fixed process hash `h` — it depends only on
the `str` renderings (hence equal argument values give equal keys). -/
theorem C9_cache_key_shape (h : String → Int) (p n : String)
    (args : List Arg) (kwargs : List (String × Arg)) :
    (cacheKey h p n [] [] = p ++ ":" ++ n) ∧
    (args ≠ [] →
      cacheKey h p n args [] =
        p ++ ":" ++ n ++ ":" ++ toString (h (pyStrTuple args))) ∧
    (kwargs ≠ [] →
      cacheKey h p n [] kwargs =
        p ++ ":" ++ n ++ ":" ++ toString (h (pyStrKwargs kwargs))) ∧
    (args ≠ [] → kwargs ≠ [] →
      cacheKey h p n args kwargs =
        p ++ ":" ++ n ++ ":" ++ toString (h (pyStrTuple args)) ++ ":" ++
          toString (h (pyStrKwargs kwargs))) ∧
    (∀ (args2 : List Arg) (kwargs2 : List (String × Arg)),
      pyStrTuple args = pyStrTuple args2 →
      pyStrKwargs kwargs = pyStrKwargs kwargs2 →
      args.isEmpty = args2.isEmpty → kwargs.isEmpty = kwargs2.isEmpty →
      cacheKey h p n args kwargs = cacheKey h p n args2 kwargs2) := by
  refine ⟨rfl, ?_, ?_, ?_, ?_⟩
  · intro ha
    simp [cacheKey, ha]
  · intro hk
    simp [cacheKey, hk]
  · intro ha hk
    simp [cacheKey, ha, hk]
  · intro args2 kwargs2 hstr hkw hae hke
    unfold cacheKey
    rw [hstr, hkw, hae, hke]

/-- Witness for the amended C9 statement: both digest segments appear for a
call with one positional and one keyword argument. -/
theorem C9_cache_key_shape_witness :
    cacheKey hLen "task" "get_task_by_id" [Arg.int 1] [("k", Arg.str "v")] =
      "task" ++ ":" ++ "get_task_by_id" ++ ":" ++
        toString (hLen (pyStrTuple [Arg.int 1])) ++ ":" ++
        toString (hLen (pyStrKwargs [("k", Arg.str "v")])) :=
  (C9_cache_key_shape hLen "task" "get_task_by_id" [Arg.int 1]
      [("k", Arg.str "v")]).2.2.2.1 (by decide) (by decide)

/-! ## C8 -/

set_option maxRecDepth 16384 in
/-- C8: with a reachable cache, delete-then-get does NOT return NotFound.
Starting from one task (id 1) and a working empty cache, a `GET /tasks/1`
populates the cache; `DELETE /tasks/1` succeeds and empties the table, yet
the following `GET /tasks/1` answers 200 with the deleted task served from
the stale cache entry: the direct key delete in the handler digests the
positional tuple `(1,)` while the cached key was digested from the keyword
arguments FastAPI passes, and the invalidation pattern `"tasks:*"` does not
match keys under the `"task:"` prefix. -/
theorem C8_delete_leaves_stale_entry :
    c8_afterGet.1 = .ok (some (Resp.task (toResponse c8_task))) ∧
    c8_afterDelete.1 = .ok (some (Resp.msg "Task 1 deleted successfully")) ∧
    c8_afterDelete.2.db.tasks = [] ∧
    isConnected c8_afterDelete.2.cache = true ∧
    c8_afterGet2.1 = .ok (some (Resp.task (toResponse c8_task))) ∧
    c8_afterGet2.1 ≠
      .raised (httpExc 404 "Task with id 1 not found") :=
  ⟨rfl, rfl, rfl, rfl, rfl, by decide⟩

/-! ## C4 -/

set_option maxRecDepth 16384 in
/-- C4 counterexample: with the cache reachable, two successful calls to
`GET /tasks/` leave the status-200 response counter for `get_all_tasks` at 1,
not 2 — the second call is served by the cache-aside wrapper, which sits
outside `track_endpoint_metrics` and so never reaches it. -/
theorem C4_counterexample :
    c4_call1.1 = .ok (some (Resp.tasks [])) ∧
    c4_call2.1 = .ok (some (Resp.tasks [])) ∧
    countOf c4_call2.2.metrics.responses ("get_all_tasks", "GET", 200) = 1 ∧
    countOf c4_call2.2.metrics.responses ("get_all_tasks", "GET", 200) ≠ 2 :=
  ⟨rfl, rfl, rfl, by decide⟩

theorem getAll_unreachable_step (h : String → Int) (w : World)
    (hc : isConnected w.cache = false) (hp : w.db.pool = true)
    (hf : w.db.failing = false) :
    (get_all_tasks_endpoint h w).1 =
        .ok (some (Resp.tasks ((sortRows w.db.tasks).map toResponse))) ∧
      (get_all_tasks_endpoint h w).2.cache = w.cache ∧
      (get_all_tasks_endpoint h w).2.db = w.db ∧
      countOf (get_all_tasks_endpoint h w).2.metrics.responses
          ("get_all_tasks", "GET", 200) =
        countOf w.metrics.responses ("get_all_tasks", "GET", 200) + 1 := by
  simp [get_all_tasks_endpoint, cache_response, track_endpoint_metrics,
    get_all_tasks_body, incNamed, recNamed, hc, hp, hf, countOf_bump_self]

/-- C4 amended: the response counter counts exactly the calls that reach the
metrics wrapper.  When the cache does not serve hits (here: unreachable
cache), N successful `GET /tasks/` calls add exactly N to the
(method GET, status 200) response counter of the endpoint; when the cache is reachable,
a hit is answered by the outer cache-aside wrapper and leaves the counter
unchanged (see the counterexample). -/
theorem C4_response_counter_counts_wrapped_calls (h : String → Int)
    (N : Nat) (w : World)
    (hc : isConnected w.cache = false) (hp : w.db.pool = true)
    (hf : w.db.failing = false) :
    countOf (iterCalls (get_all_tasks_endpoint h) N w).metrics.responses
        ("get_all_tasks", "GET", 200) =
      countOf w.metrics.responses ("get_all_tasks", "GET", 200) + N := by
  induction N generalizing w with
  | zero => simp [iterCalls]
  | succ n ih =>
    obtain ⟨-, hcache, hdb, hcount⟩ := getAll_unreachable_step h w hc hp hf
    have hc1 : isConnected (get_all_tasks_endpoint h w).2.cache = false := by
      rw [hcache]; exact hc
    have hp1 : (get_all_tasks_endpoint h w).2.db.pool = true := by
      rw [hdb]; exact hp
    have hf1 : (get_all_tasks_endpoint h w).2.db.failing = false := by
      rw [hdb]; exact hf
    have := ih (get_all_tasks_endpoint h w).2 hc1 hp1 hf1
    simp only [iterCalls, this, hcount]
    omega

/-- Witness for the amended C4 statement: three list reads against a down
cache and a live pool put the counter at exactly 3. -/
theorem C4_response_counter_witness :
    countOf (iterCalls (get_all_tasks_endpoint hLen) 3 wDown).metrics.responses
        ("get_all_tasks", "GET", 200) =
      countOf wDown.metrics.responses ("get_all_tasks", "GET", 200) + 3 :=
  C4_response_counter_counts_wrapped_calls hLen 3 wDown rfl rfl rfl

/-! ## C5 -/

/-- C5: when the wrapped handler raises `e`, the metrics wrapper observes the
duration into the per-endpoint histogram, increments the response counter with
the carried status code of `e` (500 when it carries none), increments the error
counter labelled with the endpoint and the type name of `e`, decrements the
in-flight gauge, and re-raises `e` unchanged. -/
theorem C5_metrics_on_failure {ρ : Type} (ep m : String)
    (op : World → Outcome ρ × World) (w w1 : World) (e : Err)
    (hop : op { w with metrics :=
        { w.metrics with inFlight := adjG w.metrics.inFlight ep 1 } } =
      (.raised e, w1)) :
    track_endpoint_metrics ep m op w =
      (.raised e,
       { w1 with metrics :=
         { w1.metrics with
           observations := bump w1.metrics.observations (ep, m),
           responses :=
             bump w1.metrics.responses (ep, m, e.statusCode.getD 500),
           errors := bump w1.metrics.errors (ep, e.typeName),
           inFlight := adjG w1.metrics.inFlight ep (-1) } }) := by
  simp [track_endpoint_metrics, hop]

/-- Witness for C5: a handler raising a 409-carrying failure from the
`create_task` endpoint. -/
theorem C5_metrics_on_failure_witness :
    track_endpoint_metrics "create_task" "POST" opConst409 wDown =
      (.raised err409,
       { wDown with metrics :=
         { wDown.metrics with
           observations := bump wDown.metrics.observations
             ("create_task", "POST"),
           responses := bump wDown.metrics.responses
             ("create_task", "POST", err409.statusCode.getD 500),
           errors := bump wDown.metrics.errors
             ("create_task", err409.typeName),
           inFlight := adjG wDown.metrics.inFlight "create_task" (-1) } }) :=
  C5_metrics_on_failure "create_task" "POST" opConst409 wDown wDown err409 rfl

/-! ## C6 -/

/-- C6: an update call targeting an existing task with none of the optional
fields supplied raises a 400 BadRequest, and both the database (so the stored
row and its `updated_at`) and the cache are left exactly as they were — no
UPDATE runs and no invalidation happens. -/
theorem C6_update_no_fields_bad_request (h : String → Int) (task_id : Int)
    (t : TaskRow) (w : World)
    (hp : w.db.pool = true) (hf : w.db.failing = false)
    (ht : findTask w.db.tasks task_id = some t) :
    (update_task_endpoint h task_id
        { title := none, description := none, status := none } w).1 =
      .raised (httpExc 400 "No fields to update") ∧
    (update_task_endpoint h task_id
        { title := none, description := none, status := none } w).2.db =
      w.db ∧
    (update_task_endpoint h task_id
        { title := none, description := none, status := none } w).2.cache =
      w.cache := by
  simp [update_task_endpoint, invalidate_cache, track_endpoint_metrics,
    update_task_body, incNamed, hp, hf, ht]

/-- Witness for C6: an empty update of the existing task 1. -/
theorem C6_update_no_fields_witness :
    (update_task_endpoint hLen 1
        { title := none, description := none, status := none } c8_w0).1 =
      .raised (httpExc 400 "No fields to update") ∧
    (update_task_endpoint hLen 1
        { title := none, description := none, status := none } c8_w0).2.db =
      c8_w0.db ∧
    (update_task_endpoint hLen 1
        { title := none, description := none, status := none } c8_w0).2.cache =
      c8_w0.cache :=
  C6_update_no_fields_bad_request hLen 1 c8_task c8_w0 rfl rfl rfl

/-! ## C1 -/

/-- C1: the cache-aside contract of a wrapped read.  With a reachable cache
and a stored value under the derived key, the wrapper answers that value
without invoking the handler (the result does not depend on `op`, and the
state is untouched).  On a miss it invokes the handler: a raised failure
propagates; a `None` result is returned without storing; a non-null result is
returned and stored under the key with expiry exactly the configured `ttl`.
With an unreachable cache it behaves as the bare handler. -/
theorem C1_cache_aside_contract (h : String → Int) (ttlv : Nat)
    (p n : String) (args : List Arg) (kwargs : List (String × Arg))
    (op : World → Outcome (Option Resp) × World) (w : World) :
    (∀ v t, reachableCache w.cache →
      lookupStore w.cache.store (cacheKey h p n args kwargs) = some (v, t) →
      cache_response h (some ttlv) p n args kwargs op w = (.ok (some v), w)) ∧
    (reachableCache w.cache →
      lookupStore w.cache.store (cacheKey h p n args kwargs) = none →
      ∀ e w1, op w = (.raised e, w1) →
        cache_response h (some ttlv) p n args kwargs op w = (.raised e, w1)) ∧
    (reachableCache w.cache →
      lookupStore w.cache.store (cacheKey h p n args kwargs) = none →
      ∀ w1, op w = (.ok none, w1) →
        cache_response h (some ttlv) p n args kwargs op w = (.ok none, w1)) ∧
    (reachableCache w.cache →
      lookupStore w.cache.store (cacheKey h p n args kwargs) = none →
      ∀ v w1, op w = (.ok (some v), w1) → reachableCache w1.cache →
        cache_response h (some ttlv) p n args kwargs op w =
          (.ok (some v),
           { w1 with cache :=
              storeAfterSet w1.cache (cacheKey h p n args kwargs) v ttlv })) ∧
    (isConnected w.cache = false → isConnected (op w).2.cache = false →
      cache_response h (some ttlv) p n args kwargs op w = op w) := by
  refine ⟨?_, ?_, ?_, ?_, ?_⟩
  · rintro v t ⟨hconn, hget, -⟩ hvt
    simp [cache_response, cacheGet, hconn, hget, hvt]
  · rintro ⟨hconn, hget, -⟩ hmiss e w1 hop
    simp [cache_response, cacheGet, hconn, hget, hmiss, hop]
  · rintro ⟨hconn, hget, -⟩ hmiss w1 hop
    simp [cache_response, cacheGet, hconn, hget, hmiss, hop]
  · rintro ⟨hconn, hget, -⟩ hmiss v w1 hop ⟨hconn1, -, hset1⟩
    simp [cache_response, cacheGet, cacheSet, hconn, hget, hmiss, hop,
      hconn1, hset1]
  · intro hconn hconn1
    cases hop : op w with
    | mk r w1 =>
      cases r with
      | raised e => simp [cache_response, hconn, hop]
      | ok rv =>
        cases rv with
        | none => simp [cache_response, hconn, hop]
        | some v =>
          have : isConnected w1.cache = false := by
            rw [hop] at hconn1; exact hconn1
          simp [cache_response, hconn, hop, this]

/-- Witness for C1 (hit conjunct): the wrapper answers the stored value at
`wHit` even under a handler that would raise. -/
theorem C1_cache_aside_contract_witness :
    cache_response hLen (some 60) "p" "f" [] [] opRaise404 wHit =
      (.ok (some (Resp.msg "cached")), wHit) :=
  (C1_cache_aside_contract hLen 60 "p" "f" [] [] opRaise404 wHit).1
    (Resp.msg "cached") 60 (by exact ⟨rfl, rfl, rfl⟩) (by decide)

/-! ## C2 -/

/-- C2: cache failures are never visible to the caller.  With the cache
disabled/disconnected or the store raising during `get`, the wrapper result
is exactly the wrapped handler result; a store raising during `set` (after
a genuine miss) still yields the handler result and state, the failed write
ignored; internally, `get` returns `None` and `set` returns `False` (leaving
the store unchanged) instead of raising. -/
theorem C2_cache_failures_invisible (h : String → Int) (ttl : Option Nat)
    (p n : String) (args : List Arg) (kwargs : List (String × Arg))
    (op : World → Outcome (Option Resp) × World) (w : World) :
    ((isConnected w.cache = false ∨ w.cache.getFails = true) →
      (cache_response h ttl p n args kwargs op w).1 = (op w).1) ∧
    (isConnected w.cache = true → w.cache.getFails = false →
      lookupStore w.cache.store (cacheKey h p n args kwargs) = none →
      ∀ v w1, op w = (.ok (some v), w1) → w1.cache.setFails = true →
        cache_response h ttl p n args kwargs op w = (.ok (some v), w1)) ∧
    (∀ c key, c.getFails = true → cacheGet c key = none) ∧
    (∀ c key v t, c.setFails = true →
      (cacheSet c key v t).1 = false ∧ (cacheSet c key v t).2 = c) := by
  refine ⟨?_, ?_, ?_, ?_⟩
  · intro hfail
    have hdis : isConnected w.cache = false ∨
        (isConnected w.cache = true ∧ w.cache.getFails = true) := by
      rcases hfail with hd | hg
      · exact Or.inl hd
      · cases hc : isConnected w.cache
        · exact Or.inl rfl
        · exact Or.inr ⟨rfl, hg⟩
    cases hop : op w with
    | mk r w1 =>
      cases r with
      | raised e =>
        rcases hdis with hd | ⟨hc, hg⟩
        · simp [cache_response, hd, hop]
        · simp [cache_response, cacheGet, hc, hg, hop]
      | ok rv =>
        cases rv with
        | none =>
          rcases hdis with hd | ⟨hc, hg⟩
          · simp [cache_response, hd, hop]
          · simp [cache_response, cacheGet, hc, hg, hop]
        | some v =>
          rcases hdis with hd | ⟨hc, hg⟩
          · by_cases hc1 : isConnected w1.cache = true <;>
              simp [cache_response, hd, hop, hc1]
          · by_cases hc1 : isConnected w1.cache = true <;>
              simp [cache_response, cacheGet, hc, hg, hop, hc1]
  · intro hconn hget hmiss v w1 hop hset1
    by_cases hc1 : isConnected w1.cache = true <;>
      simp [cache_response, cacheGet, cacheSet, hconn, hget, hmiss, hop,
        hc1, hset1]
  · intro c key hget
    simp [cacheGet, hget]
  · intro c key v t hset
    constructor <;> by_cases hc : isConnected c = true <;>
      simp [cacheSet, hset, hc]

/-- Witness for C2 (degradation conjunct): with the client gone, the wrapper
returns exactly what the handler produced. -/
theorem C2_cache_failures_invisible_witness :
    (cache_response hLen (some 60) "p" "f" [] [] opPong wDown).1 =
      (opPong wDown).1 :=
  (C2_cache_failures_invisible hLen (some 60) "p" "f" [] [] opPong
    wDown).1 (Or.inl rfl)

/-! ## C3 -/

theorem track_gauge_net_zero {ρ : Type} (e m : String)
    (op : World → Outcome ρ × World) (w : World)
    (hpres : ∀ w0 : World,
      gaugeOf (op w0).2.metrics.inFlight e = gaugeOf w0.metrics.inFlight e) :
    gaugeOf (track_endpoint_metrics e m op w).2.metrics.inFlight e =
      gaugeOf w.metrics.inFlight e := by
  cases hw : op { w with metrics :=
      { w.metrics with inFlight := adjG w.metrics.inFlight e 1 } } with
  | mk r w1 =>
    have h1 : gaugeOf w1.metrics.inFlight e =
        gaugeOf w.metrics.inFlight e + 1 := by
      have hp := hpres { w with metrics :=
        { w.metrics with inFlight := adjG w.metrics.inFlight e 1 } }
      rw [hw] at hp
      simpa [gaugeOf_adjG_self] using hp
    cases r <;>
      simp [track_endpoint_metrics, hw, gaugeOf_adjG_self, h1]

/-- C3: the in-flight gauge is exception-safe.  For any batch of handlers
that do not themselves move the gauge of the endpoint, running them all through
the metrics wrapper — whether each returns normally or raises — leaves the
in-flight gauge of the endpoint at its initial value (net change zero); and the
wrapped handler itself runs with the gauge incremented by exactly one (a
probe handler invoked by the wrapper observes initial value + 1). -/
theorem C3_inflight_gauge_balanced (e m : String) :
    (∀ (ops : List (World → Outcome (Option Resp) × World)) (w : World),
      (∀ op ∈ ops, ∀ w0 : World,
        gaugeOf (op w0).2.metrics.inFlight e =
          gaugeOf w0.metrics.inFlight e) →
      gaugeOf
          (runSeq (ops.map (track_endpoint_metrics e m)) w).metrics.inFlight
          e =
        gaugeOf w.metrics.inFlight e) ∧
    (∀ w : World,
      (track_endpoint_metrics e m (probeGauge e) w).1 =
        .ok (gaugeOf w.metrics.inFlight e + 1)) := by
  constructor
  · intro ops
    induction ops with
    | nil => intro w _; rfl
    | cons op rest ih =>
      intro w hall
      have hop := hall op (List.mem_cons_self op rest)
      have hrest : ∀ o ∈ rest, ∀ w0 : World,
          gaugeOf (o w0).2.metrics.inFlight e =
            gaugeOf w0.metrics.inFlight e :=
        fun o ho => hall o (List.mem_cons_of_mem op ho)
      calc gaugeOf
            (runSeq ((op :: rest).map (track_endpoint_metrics e m))
              w).metrics.inFlight e
          = gaugeOf
              (runSeq (rest.map (track_endpoint_metrics e m))
                (track_endpoint_metrics e m op w).2).metrics.inFlight e :=
            rfl
        _ = gaugeOf
              (track_endpoint_metrics e m op w).2.metrics.inFlight e :=
            ih (track_endpoint_metrics e m op w).2 hrest
        _ = gaugeOf w.metrics.inFlight e :=
            track_gauge_net_zero e m op w hop
  · intro w
    simp [track_endpoint_metrics, probeGauge, gaugeOf_adjG_self]

/-- Witness for C3: one successful and one failing call leave the gauge at
its initial value, and the probe sees the incremented gauge. -/
theorem C3_inflight_gauge_balanced_witness :
    gaugeOf
        (runSeq ([opPong, opRaise404].map
          (track_endpoint_metrics "get_all_tasks" "GET"))
          wDown).metrics.inFlight "get_all_tasks" =
      gaugeOf wDown.metrics.inFlight "get_all_tasks" ∧
    (track_endpoint_metrics "get_all_tasks" "GET"
        (probeGauge "get_all_tasks") wDown).1 =
      .ok (gaugeOf wDown.metrics.inFlight "get_all_tasks" + 1) :=
  ⟨(C3_inflight_gauge_balanced "get_all_tasks" "GET").1 [opPong, opRaise404]
      wDown (by
        intro op hop w0
        rcases List.mem_cons.mp hop with h | h
        · subst h; rfl
        · rcases List.mem_cons.mp h with h2 | h2
          · subst h2; rfl
          · cases h2),
    (C3_inflight_gauge_balanced "get_all_tasks" "GET").2 wDown⟩

end Tfss
